import Mathlib

/-!
Shallow embedding of `scripts/download_surahs.py`.

The script downloads 114 surah MP3 files: it loads a JSON manifest
(`load_surahs`), scrapes a reciter page for download URLs
(`discover_urls`), and downloads each missing file with a bounded
retry loop (`download_file`), orchestrated by `main`.

Effects are modelled explicitly:
* the filesystem (the audio directory) is an association list from
  filename to file content;
* the network is an oracle: the fetched page text for discovery, and
  an outcome per (download index, attempt number) for downloads;
* `print` calls are collected into stdout/stderr message traces;
* `time.sleep` calls are collected into a list of slept durations.
-/

namespace QuranDL

/-- Constant `RETRY_LIMIT = 3` from the script. -/
def RETRY_LIMIT : Nat := 3

/-- Constant `CHUNK_SIZE = 1 << 15` from the script (32 KiB). -/
def CHUNK_SIZE : Nat := 1 <<< 15

/-! ## Filesystem model

The audio directory, as an association list from filename to content.
A file "exists" iff its name has an entry. -/

/-- The audio directory: filename ↦ content. -/
abbrev FS : Type := List (String × String)

/-- Content of a file, `none` if absent. -/
def fsLookup : FS → String → Option String
  | [], _ => none
  | (n, c) :: rest, name => if n = name then some c else fsLookup rest name

/-- The check `Path.exists()` for a file of the audio directory. -/
def fsExists (fs : FS) (name : String) : Bool :=
  (fsLookup fs name).isSome

/-- Writing a file (create or overwrite). -/
def fsSet : FS → String → String → FS
  | [], name, c => [(name, c)]
  | (n0, c0) :: rest, name, c =>
    if n0 = name then (name, c) :: rest else (n0, c0) :: fsSet rest name c

/-- The call `Path.unlink` for a file of the audio directory. -/
def fsRemove : FS → String → FS
  | [], _ => []
  | (n0, c0) :: rest, name =>
    if n0 = name then fsRemove rest name else (n0, c0) :: fsRemove rest name

/-- Setting the observable content of one path: write it or remove it. -/
def fsUpdate (fs : FS) (name : String) : Option String → FS
  | some c => fsSet fs name c
  | none => fsRemove fs name

/-! ## `download_file`

One attempt of the download loop either succeeds after streaming the
whole body to the destination, or fails in one of the ways the
`except (error.URLError, error.HTTPError, RuntimeError)` clause
catches. -/

/-- Outcome of a single attempt of `download_file`:
* `netErr`: `request.urlopen` raised `URLError`/`HTTPError`, before the
  destination was opened;
* `badStatus`: `urlopen` succeeded and `destination.open("wb")` truncated
  the destination, then the non-200 status raised `RuntimeError`;
* `midStreamErr w`: the body `w` was written before an error was raised
  while streaming;
* `ok body`: status 200 and the full `body` was streamed to the file. -/
inductive AttemptOutcome where
  | netErr : AttemptOutcome
  | badStatus : AttemptOutcome
  | midStreamErr : String → AttemptOutcome
  | ok : String → AttemptOutcome
deriving DecidableEq, Repr

/-- The failing outcomes (the exceptions the `except` clause catches). -/
def AttemptOutcome.isFailure : AttemptOutcome → Bool
  | .ok _ => false
  | _ => true

/-- Content of the destination right after one attempt's `try` body
stopped, given the content `pre` before the attempt. -/
def attemptContent (pre : Option String) : AttemptOutcome → Option String
  | .netErr => pre
  | .badStatus => some ""
  | .midStreamErr w => some w
  | .ok body => some body

/-- The failure handler's
`if destination.exists(): destination.unlink(missing_ok=True)`. -/
def unlinkIfExists (c : Option String) : Option String :=
  if c.isSome then none else c

/-- Observable result of a `download_file` call:
whether it raised the terminal `RuntimeError`, the destination's content
afterwards, how many attempts were made, and the slept backoff delays
in order. -/
structure DlResult where
  raised : Bool
  post : Option String
  attempts : Nat
  sleeps : List Nat
deriving DecidableEq, Repr

/-- The `for attempt in range(1, RETRY_LIMIT + 1)` loop, over the list
of remaining attempt numbers.  `oc` gives each attempt's outcome and
`pre` is the destination's current content. -/
def downloadGo (oc : Nat → AttemptOutcome) : List Nat → Option String → DlResult
  | [], pre => { raised := false, post := pre, attempts := 0, sleeps := [] }
  | attempt :: rest, pre =>
    match oc attempt with
    | .ok body => { raised := false, post := some body, attempts := 1, sleeps := [] }
    | o =>
      let afterHandler := unlinkIfExists (attemptContent pre o)
      if attempt = RETRY_LIMIT then
        { raised := true, post := afterHandler, attempts := 1, sleeps := [] }
      else
        let r := downloadGo oc rest afterHandler
        { raised := r.raised, post := r.post, attempts := r.attempts + 1,
          sleeps := 2 * attempt :: r.sleeps }

/-- The attempt numbers `range(1, RETRY_LIMIT + 1)`. -/
def attemptNumbers : List Nat := List.range' 1 RETRY_LIMIT

/-- The function `download_file(url, destination)`: `pre` is the destination's content
before the call (`none` when the file does not exist). -/
def download_file (oc : Nat → AttemptOutcome) (pre : Option String) : DlResult :=
  downloadGo oc attemptNumbers pre

/-! ## `discover_urls`

The script scans the fetched page with
`re.compile(r"https://[^\"']+?/([0-9]{3})\.mp3").finditer(html)` and
builds `urls[int(group 1)] = group 0` for each match in document order.
The scan is implemented concretely below on the page's character list:
a match starts with the literal `https://`, then a shortest nonempty
run of characters other than the two quote characters (the lazy
`[^"']+?`), then `/`, three digits (the capture group), and `.mp3`. -/

/-- A character the negated class `[^"']` rejects: `"` (34) or `'` (39). -/
def isQuoteChar (c : Char) : Bool :=
  c == Char.ofNat 34 || c == Char.ofNat 39

/-- Match the literal tail `/ddd.mp3` at the head of the suffix; on
success return the three digit characters and the rest of the input. -/
def tailMatch : List Char → Option (List Char × List Char)
  | '/' :: d1 :: d2 :: d3 :: '.' :: 'm' :: 'p' :: '3' :: rest =>
    if d1.isDigit && d2.isDigit && d3.isDigit then some ([d1, d2, d3], rest)
    else none
  | _ => none

/-- The lazy `[^"']+?` followed by the tail: consume at least one
non-quote character, trying the tail after each new character (shortest
extension first), failing on a quote character or end of input.
Returns (consumed chunk, digit group, rest after the whole match). -/
def scanChunk : List Char → Option (List Char × List Char × List Char)
  | [] => none
  | c :: rest =>
    if isQuoteChar c then none
    else
      match tailMatch rest with
      | some (digits, after) => some ([c], digits, after)
      | none =>
        match scanChunk rest with
        | some (chunk, digits, after) => some (c :: chunk, digits, after)
        | none => none

/-- One regex match: the full matched text (`group(0)`) and the
three-digit capture (`group(1)`). -/
structure ReMatch where
  full : List Char
  digits : List Char
deriving DecidableEq, Repr

/-- The literal `https://` that starts every match. -/
def httpsLit : List Char := ['h', 't', 't', 'p', 's', ':', '/', '/']

/-- The literal `.mp3` that ends every match. -/
def mp3Lit : List Char := ['.', 'm', 'p', '3']

/-- Try to match the pattern at the head of the input; on success
return the match and the rest of the input after it. -/
def matchAt : List Char → Option (ReMatch × List Char)
  | 'h' :: 't' :: 't' :: 'p' :: 's' :: ':' :: '/' :: '/' :: rest =>
    match scanChunk rest with
    | some (chunk, digits, after) =>
      some (⟨httpsLit ++ chunk ++ '/' :: digits ++ mp3Lit, digits⟩, after)
    | none => none
  | _ => none

/-- The scan `finditer`: leftmost, non-overlapping matches in document order.
The first argument only bounds the recursion: every step consumes at
least one character of the input, and the bound shrinks by exactly one
per step, so starting both from the page the bound never cuts the scan
short. -/
def findAllGo : List Char → List Char → List ReMatch
  | _, [] => []
  | [], _ => []
  | _ :: fuelRest, c :: rest =>
    match matchAt (c :: rest) with
    | some (m, after) => m :: findAllGo fuelRest after
    | none => findAllGo fuelRest rest

/-- All matches of the discovery pattern in the page, in document order. -/
def findAll (s : List Char) : List ReMatch :=
  findAllGo s s

/-- The value `int` of the three-digit capture group. -/
def digitsToNat (ds : List Char) : Nat :=
  ds.foldl (fun a c => 10 * a + (c.toNat - 48)) 0

/-- The dict key `int(match.group(1))` of a match. -/
def reMatchKey (m : ReMatch) : Int :=
  Int.ofNat (digitsToNat m.digits)

/-- The dict value `match.group(0)` of a match. -/
def reMatchUrl (m : ReMatch) : String :=
  String.mk m.full

/-! The Python dict `urls`, as an insertion-ordered association list
with distinct keys: assignment updates the existing entry in place or
appends a new one, and `len` is the entry count. -/

/-- The discovered URL index: surah number ↦ URL. -/
abbrev UrlMap : Type := List (Int × String)

/-- Dict lookup `d[k]`, `none` when the key is absent (`KeyError`). -/
def dictLookup : UrlMap → Int → Option String
  | [], _ => none
  | (k0, v0) :: rest, k => if k0 = k then some v0 else dictLookup rest k

/-- Dict assignment `d[k] = v`. -/
def dictSet : UrlMap → Int → String → UrlMap
  | [], k, v => [(k, v)]
  | (k0, v0) :: rest, k, v =>
    if k0 = k then (k, v) :: rest else (k0, v0) :: dictSet rest k v

/-- The `for match in pattern.finditer(html): urls[num] = match.group(0)`
loop, starting from the empty dict. -/
def buildUrls (ms : List ReMatch) : UrlMap :=
  ms.foldl (fun d m => dictSet d (reMatchKey m) (reMatchUrl m)) []

/-- The function `discover_urls()`.  The fetch oracle is the page text, or `.error`
when `request.urlopen` raised.  The result is the URL dict, or `.error`
when the fetch failed or fewer than 114 distinct keys were found (both
exceptions propagate out of `discover_urls`). -/
def discover_urls (fetch : Except Unit String) : Except Unit UrlMap :=
  match fetch with
  | .error e => .error e
  | .ok html =>
    let urls := buildUrls (findAll html.data)
    if urls.length < 114 then .error () else .ok urls

/-! ## `main` -/

/-- One manifest entry produced by `load_surahs`:
`{"number": int(entry["number"]), "filename": entry["audioFile"]}`. -/
structure SurahEntry where
  number : Int
  filename : String
deriving DecidableEq, Repr

/-- The diagnostic and progress messages `main` prints, by meaning:
* `discoveryFailed`: "Unable to discover MP3 URLs: …" (stderr);
* `allPresent`: "All surah files already present. Nothing to download.";
* `downloadingTotal n`: "Downloading n surah MP3 files to …";
* `progress i n f u`: "[i/n] f ← u";
* `noUrl k`: "No download URL discovered for surah k; skipping." (stderr);
* `downloadFailed f`: "Error downloading f: …" (stderr);
* `completed`: "Download completed successfully.". -/
inductive Msg where
  | discoveryFailed : Msg
  | allPresent : Msg
  | downloadingTotal : Nat → Msg
  | progress : Nat → Nat → String → String → Msg
  | noUrl : Int → Msg
  | downloadFailed : String → Msg
  | completed : Msg
deriving DecidableEq, Repr

/-- The world `main` runs against:
* `manifest`: what `load_surahs()` returns, `.error` when it raises
  (file missing, JSON malformed, field missing or non-numeric);
* `fetch`: the reciter page's decoded text, `.error` when its fetch
  raises;
* `dl i a`: the outcome of attempt `a` of the download for the `i`-th
  missing entry (1-based, in loop order). -/
structure Env where
  manifest : Except Unit (List SurahEntry)
  fetch : Except Unit String
  dl : Nat → Nat → AttemptOutcome

/-- Observable result of a `main` run that did not crash:
exit code, final audio directory, the `download_file` calls made (entry
and download result, in order), and the stdout/stderr message traces. -/
structure RunResult where
  exit : Nat
  fs : FS
  calls : List (SurahEntry × DlResult)
  stdout : List Msg
  stderr : List Msg
deriving DecidableEq, Repr

/-- The `for index, entry in enumerate(missing, start=1)` loop of
`main`: look up each entry's URL (absent ⇒ exit 1), download it
(terminal error ⇒ exit 1), else continue. -/
def downloadLoop (dl : Nat → Nat → AttemptOutcome) (urlMap : UrlMap) (total : Nat) :
    List SurahEntry → Nat → FS → RunResult
  | [], _, fs =>
    { exit := 0, fs := fs, calls := [], stdout := [Msg.completed], stderr := [] }
  | entry :: rest, index, fs =>
    match dictLookup urlMap entry.number with
    | none =>
      { exit := 1, fs := fs, calls := [], stdout := [],
        stderr := [Msg.noUrl entry.number] }
    | some url =>
      let r := download_file (dl index) (fsLookup fs entry.filename)
      let fs1 := fsUpdate fs entry.filename r.post
      if r.raised then
        { exit := 1, fs := fs1, calls := [(entry, r)],
          stdout := [Msg.progress index total entry.filename url],
          stderr := [Msg.downloadFailed entry.filename] }
      else
        let res := downloadLoop dl urlMap total rest (index + 1) fs1
        { exit := res.exit, fs := res.fs, calls := (entry, r) :: res.calls,
          stdout := Msg.progress index total entry.filename url :: res.stdout,
          stderr := res.stderr }

/-- The function `main()`.  A `.error` result is an uncaught exception escaping
`main` (the process crashes with a traceback); `.ok` carries the
returned exit code and the run's observable effects.  `AUDIO_DIR.mkdir`
is a no-op on the modelled directory content. -/
def main (env : Env) (fs0 : FS) : Except Unit RunResult :=
  match env.manifest with
  | .error e => .error e
  | .ok surahs =>
    match discover_urls env.fetch with
    | .error _ =>
      .ok { exit := 1, fs := fs0, calls := [], stdout := [],
            stderr := [Msg.discoveryFailed] }
    | .ok urlMap =>
      let missing := surahs.filter (fun e => !(fsExists fs0 e.filename))
      if missing.isEmpty then
        .ok { exit := 0, fs := fs0, calls := [], stdout := [Msg.allPresent],
              stderr := [] }
      else
        let total := missing.length
        let r := downloadLoop env.dl urlMap total missing 1 fs0
        .ok { r with stdout := Msg.downloadingTotal total :: r.stdout }

/-- A page text holding 114 distinct three-digit links, none of whose
keys (115‥228) is a manifest number in 1‥114. -/
def bigPage : String := "https://a/115.mp3https://a/116.mp3https://a/117.mp3https://a/118.mp3https://a/119.mp3https://a/120.mp3https://a/121.mp3https://a/122.mp3https://a/123.mp3https://a/124.mp3https://a/125.mp3https://a/126.mp3https://a/127.mp3https://a/128.mp3https://a/129.mp3https://a/130.mp3https://a/131.mp3https://a/132.mp3https://a/133.mp3https://a/134.mp3https://a/135.mp3https://a/136.mp3https://a/137.mp3https://a/138.mp3https://a/139.mp3https://a/140.mp3https://a/141.mp3https://a/142.mp3https://a/143.mp3https://a/144.mp3https://a/145.mp3https://a/146.mp3https://a/147.mp3https://a/148.mp3https://a/149.mp3https://a/150.mp3https://a/151.mp3https://a/152.mp3https://a/153.mp3https://a/154.mp3https://a/155.mp3https://a/156.mp3https://a/157.mp3https://a/158.mp3https://a/159.mp3https://a/160.mp3https://a/161.mp3https://a/162.mp3https://a/163.mp3https://a/164.mp3https://a/165.mp3https://a/166.mp3https://a/167.mp3https://a/168.mp3https://a/169.mp3https://a/170.mp3https://a/171.mp3https://a/172.mp3https://a/173.mp3https://a/174.mp3https://a/175.mp3https://a/176.mp3https://a/177.mp3https://a/178.mp3https://a/179.mp3https://a/180.mp3https://a/181.mp3https://a/182.mp3https://a/183.mp3https://a/184.mp3https://a/185.mp3https://a/186.mp3https://a/187.mp3https://a/188.mp3https://a/189.mp3https://a/190.mp3https://a/191.mp3https://a/192.mp3https://a/193.mp3https://a/194.mp3https://a/195.mp3https://a/196.mp3https://a/197.mp3https://a/198.mp3https://a/199.mp3https://a/200.mp3https://a/201.mp3https://a/202.mp3https://a/203.mp3https://a/204.mp3https://a/205.mp3https://a/206.mp3https://a/207.mp3https://a/208.mp3https://a/209.mp3https://a/210.mp3https://a/211.mp3https://a/212.mp3https://a/213.mp3https://a/214.mp3https://a/215.mp3https://a/216.mp3https://a/217.mp3https://a/218.mp3https://a/219.mp3https://a/220.mp3https://a/221.mp3https://a/222.mp3https://a/223.mp3https://a/224.mp3https://a/225.mp3https://a/226.mp3https://a/227.mp3https://a/228.mp3"

/-! ## Lemmas about `download_file`

With `RETRY_LIMIT = 3` the loop unfolds into a normal form by cases on
the three attempts' outcomes.  After any failed attempt the handler
leaves the destination absent, whatever the attempt wrote and whatever
was there before. -/

/-- The attempt numbers are `[1, 2, 3]`. -/
theorem attemptNumbers_eq : attemptNumbers = [1, 2, 3] := rfl

/-- After a failed attempt, the failure handler always leaves the
destination absent. -/
theorem afterFailure_eq_none (pre : Option String) (o : AttemptOutcome)
    (h : o.isFailure = true) : unlinkIfExists (attemptContent pre o) = none := by
  cases o <;> cases pre <;> simp_all [AttemptOutcome.isFailure, attemptContent, unlinkIfExists]

/-- Normal form of `download_file` by cases on the three attempts. -/
theorem download_file_eq (oc : Nat → AttemptOutcome) (pre : Option String) :
    download_file oc pre =
      match oc 1 with
      | .ok b => { raised := false, post := some b, attempts := 1, sleeps := [] }
      | _ =>
        match oc 2 with
        | .ok b => { raised := false, post := some b, attempts := 2, sleeps := [2] }
        | _ =>
          match oc 3 with
          | .ok b => { raised := false, post := some b, attempts := 3, sleeps := [2, 4] }
          | _ => { raised := true, post := none, attempts := 3, sleeps := [2, 4] } := by
  cases h1 : oc 1 <;> cases h2 : oc 2 <;> cases h3 : oc 3 <;> cases pre <;>
    simp [download_file, attemptNumbers_eq, downloadGo, RETRY_LIMIT, h1, h2, h3,
      unlinkIfExists, attemptContent]

/-- C2: if all 3 attempts of `download_file` fail with one of the
caught errors (network error, HTTP error, or non-200 status), then the
call raises the terminal `RuntimeError`, the destination file does not
exist afterwards (the failure handler removed any partial write), and
all `RETRY_LIMIT` attempts were made. -/
theorem c2_all_attempts_fail (oc : Nat → AttemptOutcome) (pre : Option String)
    (h1 : (oc 1).isFailure = true) (h2 : (oc 2).isFailure = true)
    (h3 : (oc 3).isFailure = true) :
    (download_file oc pre).raised = true ∧ (download_file oc pre).post = none ∧
      (download_file oc pre).attempts = RETRY_LIMIT := by
  rw [download_file_eq]
  cases ho1 : oc 1 <;> cases ho2 : oc 2 <;> cases ho3 : oc 3 <;>
    simp_all [AttemptOutcome.isFailure, RETRY_LIMIT]

/-- Witness for C2 at a concrete input: every attempt a network error,
with a file already at the destination before the call. -/
theorem c2_all_attempts_fail_witness :
    (download_file (fun _ => AttemptOutcome.netErr) (some "old")).raised = true ∧
      (download_file (fun _ => AttemptOutcome.netErr) (some "old")).post = none ∧
      (download_file (fun _ => AttemptOutcome.netErr) (some "old")).attempts = RETRY_LIMIT :=
  c2_all_attempts_fail (fun _ => AttemptOutcome.netErr) (some "old") rfl rfl rfl

/-- C3: if attempts 1 and 2 fail but attempt 3 returns the full body,
`download_file` returns normally, makes exactly 3 attempts, and leaves
the destination holding the full response body. -/
theorem c3_third_attempt_succeeds (oc : Nat → AttemptOutcome) (pre : Option String)
    (body : String) (h1 : (oc 1).isFailure = true) (h2 : (oc 2).isFailure = true)
    (h3 : oc 3 = .ok body) :
    (download_file oc pre).raised = false ∧ (download_file oc pre).attempts = 3 ∧
      (download_file oc pre).post = some body := by
  rw [download_file_eq]
  cases ho1 : oc 1 <;> cases ho2 : oc 2 <;>
    simp_all [AttemptOutcome.isFailure]

/-- Witness for C3 at a concrete input: non-200 status twice, then a
successful stream of `"audio"`. -/
theorem c3_third_attempt_succeeds_witness :
    (download_file (fun a => if a = 3 then .ok "audio" else .badStatus) none).raised = false ∧
      (download_file (fun a => if a = 3 then .ok "audio" else .badStatus) none).attempts = 3 ∧
      (download_file (fun a => if a = 3 then .ok "audio" else .badStatus) none).post = some "audio" :=
  c3_third_attempt_succeeds (fun a => if a = 3 then .ok "audio" else .badStatus) none
    "audio" rfl rfl rfl

/-- C8: the backoff sleeps of a `download_file` call are exactly
`2 * n` seconds for each failed non-final attempt `n`, in order: the
call that made `k` attempts slept `[2 * 1, …, 2 * (k - 1)]`, and no
more than `RETRY_LIMIT` attempts ever occur — so the only possible
delays are 2 s after attempt 1 and 4 s after attempt 2. -/
theorem c8_backoff_sleeps (oc : Nat → AttemptOutcome) (pre : Option String) :
    (download_file oc pre).sleeps =
      (List.range' 1 ((download_file oc pre).attempts - 1)).map (fun n => 2 * n) ∧
    (download_file oc pre).attempts ≤ RETRY_LIMIT := by
  rw [download_file_eq]
  cases ho1 : oc 1 <;> cases ho2 : oc 2 <;> cases ho3 : oc 3 <;> simp <;> decide

/-! ## Lemmas about the URL dict and `discover_urls` -/

/-- Lookup after a dict assignment: the assigned key reads the new
value, every other key is untouched. -/
theorem dictLookup_dictSet (d : UrlMap) (k : Int) (v : String) (k2 : Int) :
    dictLookup (dictSet d k v) k2 = if k = k2 then some v else dictLookup d k2 := by
  induction d with
  | nil => simp [dictSet, dictLookup]
  | cons p rest ih =>
    obtain ⟨k0, v0⟩ := p
    simp only [dictSet]
    by_cases h : k0 = k
    · subst h
      simp only [if_pos rfl, dictLookup]
      by_cases h2 : k0 = k2 <;> simp [h2]
    · simp only [if_neg h, dictLookup]
      by_cases h2 : k0 = k2
      · subst h2
        have hne : ¬(k = k0) := fun e => h e.symm
        simp [hne]
      · simp [h2, ih]

/-- Folding the match list into the dict: a key reads the value of the
last match with that key, and falls back to the initial dict below. -/
theorem buildUrls_foldl_lookup (ms : List ReMatch) (d : UrlMap) (k : Int) :
    dictLookup (ms.foldl (fun d m => dictSet d (reMatchKey m) (reMatchUrl m)) d) k =
      match ms.reverse.find? (fun m => decide (reMatchKey m = k)) with
      | some m => some (reMatchUrl m)
      | none => dictLookup d k := by
  induction ms generalizing d with
  | nil => simp
  | cons m ms ih =>
    simp only [List.foldl_cons, List.reverse_cons, ih, List.find?_append]
    cases hf : ms.reverse.find? (fun m => decide (reMatchKey m = k)) with
    | some m2 => simp [Option.or]
    | none =>
      simp only [Option.or, List.find?]
      by_cases hk : reMatchKey m = k
      · simp [hk, dictLookup_dictSet]
      · simp [hk, dictLookup_dictSet]

/-- The URL recorded for a key by the last match with that key in
document order (`none` when no match has the key). -/
def lastUrlFor (ms : List ReMatch) (k : Int) : Option String :=
  match ms.reverse.find? (fun m => decide (reMatchKey m = k)) with
  | some m => some (reMatchUrl m)
  | none => none

/-- C7: the discovery mapping holds, for every numeric key, the full
URL of the **last** match for that key among the pattern's matches in
the page text in document order (last-write-wins on duplicates). -/
theorem c7_last_write_wins (html : String) (k : Int) :
    dictLookup (buildUrls (findAll html.data)) k = lastUrlFor (findAll html.data) k := by
  rw [buildUrls, buildUrls_foldl_lookup, lastUrlFor]
  cases (findAll html.data).reverse.find? (fun m => decide (reMatchKey m = k)) with
  | some m => rfl
  | none => simp [dictLookup]

/-! ## Lemmas about the filesystem and the download loop -/

/-- Lookup after writing a file: the written name reads the new
content, every other name is untouched. -/
theorem fsLookup_fsSet (fs : FS) (name c n2 : String) :
    fsLookup (fsSet fs name c) n2 = if name = n2 then some c else fsLookup fs n2 := by
  induction fs with
  | nil => simp [fsSet, fsLookup]
  | cons p rest ih =>
    obtain ⟨n0, c0⟩ := p
    simp only [fsSet]
    by_cases h : n0 = name
    · subst h
      simp only [if_pos rfl, fsLookup]
      by_cases h2 : n0 = n2 <;> simp [h2]
    · simp only [if_neg h, fsLookup]
      by_cases h2 : n0 = n2
      · subst h2
        have hne : ¬(name = n0) := fun e => h e.symm
        simp [hne]
      · simp [h2, ih]

/-- A file exists after a write iff it is the written one or existed
before. -/
theorem fsExists_fsSet (fs : FS) (name c n2 : String) :
    fsExists (fsSet fs name c) n2 = (if name = n2 then true else fsExists fs n2) := by
  by_cases h : name = n2 <;> simp [fsExists, fsLookup_fsSet, h]

/-- A `download_file` call that did not raise left the destination
holding some body. -/
theorem download_file_post_of_not_raised (oc : Nat → AttemptOutcome) (pre : Option String)
    (h : (download_file oc pre).raised = false) :
    ∃ b, (download_file oc pre).post = some b := by
  rw [download_file_eq] at h ⊢
  cases ho1 : oc 1 <;> cases ho2 : oc 2 <;> cases ho3 : oc 3 <;> simp_all

/-- Unfolding: the loop on an empty list reports completion. -/
theorem downloadLoop_nil (dl : Nat → Nat → AttemptOutcome) (urlMap : UrlMap)
    (total i : Nat) (fs : FS) :
    downloadLoop dl urlMap total [] i fs =
      { exit := 0, fs := fs, calls := [], stdout := [Msg.completed], stderr := [] } := rfl

/-- Unfolding: a head entry with no discovered URL stops the loop with
exit code 1 and a stderr diagnostic, before any download call. -/
theorem downloadLoop_cons_noUrl (dl : Nat → Nat → AttemptOutcome) (urlMap : UrlMap)
    (total : Nat) (e : SurahEntry) (rest : List SurahEntry) (i : Nat) (fs : FS)
    (h : dictLookup urlMap e.number = none) :
    downloadLoop dl urlMap total (e :: rest) i fs =
      { exit := 1, fs := fs, calls := [], stdout := [],
        stderr := [Msg.noUrl e.number] } := by
  simp [downloadLoop, h]

/-- Unfolding: a head entry whose download raises stops the loop with
exit code 1 and a stderr diagnostic. -/
theorem downloadLoop_cons_raised (dl : Nat → Nat → AttemptOutcome) (urlMap : UrlMap)
    (total : Nat) (e : SurahEntry) (rest : List SurahEntry) (i : Nat) (fs : FS)
    (url : String) (h : dictLookup urlMap e.number = some url)
    (hr : (download_file (dl i) (fsLookup fs e.filename)).raised = true) :
    downloadLoop dl urlMap total (e :: rest) i fs =
      { exit := 1,
        fs := fsUpdate fs e.filename (download_file (dl i) (fsLookup fs e.filename)).post,
        calls := [(e, download_file (dl i) (fsLookup fs e.filename))],
        stdout := [Msg.progress i total e.filename url],
        stderr := [Msg.downloadFailed e.filename] } := by
  simp [downloadLoop, h, hr]

/-- Unfolding: a head entry whose download returns normally advances
the loop to the rest on the updated filesystem. -/
theorem downloadLoop_cons_success (dl : Nat → Nat → AttemptOutcome) (urlMap : UrlMap)
    (total : Nat) (e : SurahEntry) (rest : List SurahEntry) (i : Nat) (fs : FS)
    (url : String) (h : dictLookup urlMap e.number = some url)
    (hr : (download_file (dl i) (fsLookup fs e.filename)).raised = false) :
    downloadLoop dl urlMap total (e :: rest) i fs =
      { exit := (downloadLoop dl urlMap total rest (i + 1)
          (fsUpdate fs e.filename (download_file (dl i) (fsLookup fs e.filename)).post)).exit,
        fs := (downloadLoop dl urlMap total rest (i + 1)
          (fsUpdate fs e.filename (download_file (dl i) (fsLookup fs e.filename)).post)).fs,
        calls := (e, download_file (dl i) (fsLookup fs e.filename)) ::
          (downloadLoop dl urlMap total rest (i + 1)
            (fsUpdate fs e.filename (download_file (dl i) (fsLookup fs e.filename)).post)).calls,
        stdout := Msg.progress i total e.filename url ::
          (downloadLoop dl urlMap total rest (i + 1)
            (fsUpdate fs e.filename (download_file (dl i) (fsLookup fs e.filename)).post)).stdout,
        stderr := (downloadLoop dl urlMap total rest (i + 1)
          (fsUpdate fs e.filename (download_file (dl i) (fsLookup fs e.filename)).post)).stderr } := by
  simp [downloadLoop, h, hr]

/-- Every `download_file` call of the loop is for an entry of the list
the loop was given. -/
theorem downloadLoop_calls_mem (dl : Nat → Nat → AttemptOutcome) (urlMap : UrlMap)
    (total : Nat) :
    ∀ (entries : List SurahEntry) (i : Nat) (fs : FS),
      ∀ c ∈ (downloadLoop dl urlMap total entries i fs).calls, c.1 ∈ entries := by
  intro entries
  induction entries with
  | nil => intro i fs c hc; simp [downloadLoop_nil] at hc
  | cons e rest ih =>
    intro i fs c hc
    cases hl : dictLookup urlMap e.number with
    | none =>
      rw [downloadLoop_cons_noUrl dl urlMap total e rest i fs hl] at hc
      simp at hc
    | some url =>
      by_cases hr : (download_file (dl i) (fsLookup fs e.filename)).raised = true
      · rw [downloadLoop_cons_raised dl urlMap total e rest i fs url hl hr] at hc
        simp only [List.mem_singleton] at hc
        subst hc
        exact List.mem_cons_self e rest
      · rw [downloadLoop_cons_success dl urlMap total e rest i fs url hl
          (eq_false_of_ne_true hr)] at hc
        simp only [List.mem_cons] at hc
        rcases hc with hc | hc
        · subst hc; exact List.mem_cons_self e rest
        · exact List.mem_cons_of_mem e (ih _ _ c hc)

/-- A loop run that returned exit code 0 downloaded every entry it was
given and removed no file: every file existing before still exists, and
every listed entry's file exists afterwards. -/
theorem downloadLoop_exit0_fs (dl : Nat → Nat → AttemptOutcome) (urlMap : UrlMap)
    (total : Nat) :
    ∀ (entries : List SurahEntry) (i : Nat) (fs : FS),
      (downloadLoop dl urlMap total entries i fs).exit = 0 →
        (∀ name, fsExists fs name = true →
          fsExists (downloadLoop dl urlMap total entries i fs).fs name = true) ∧
        (∀ e ∈ entries, fsExists (downloadLoop dl urlMap total entries i fs).fs e.filename = true) := by
  intro entries
  induction entries with
  | nil =>
    intro i fs _
    exact ⟨fun name h => h, fun e he => absurd he (List.not_mem_nil e)⟩
  | cons e rest ih =>
    intro i fs hexit
    cases hl : dictLookup urlMap e.number with
    | none =>
      rw [downloadLoop_cons_noUrl dl urlMap total e rest i fs hl] at hexit
      simp at hexit
    | some url =>
      by_cases hr : (download_file (dl i) (fsLookup fs e.filename)).raised = true
      · rw [downloadLoop_cons_raised dl urlMap total e rest i fs url hl hr] at hexit
        simp at hexit
      · have hr' : (download_file (dl i) (fsLookup fs e.filename)).raised = false :=
          eq_false_of_ne_true hr
        rw [downloadLoop_cons_success dl urlMap total e rest i fs url hl hr'] at hexit ⊢
        obtain ⟨b, hb⟩ := download_file_post_of_not_raised _ _ hr'
        rw [hb] at hexit ⊢
        have hstep := ih (i + 1) (fsUpdate fs e.filename (some b)) hexit
        refine ⟨fun name hn => hstep.1 name ?_, fun e2 he2 => ?_⟩
        · simp only [fsUpdate, fsExists_fsSet]
          by_cases hn2 : e.filename = name <;> simp [hn2, hn]
        · rcases List.mem_cons.mp he2 with he2 | he2
          · subst he2
            exact hstep.1 e2.filename (by simp [fsUpdate, fsExists_fsSet])
          · exact hstep.2 e2 he2

/-- Helper: dropping into the tail of `getLast?` under a cons with a
nonempty tail. -/
theorem getLast?_cons_of_ne_nil {α : Type} (a : α) (l : List α) (h : l ≠ []) :
    (a :: l).getLast? = l.getLast? := by
  cases l with
  | nil => exact absurd rfl h
  | cons b t => simp [List.getLast?_cons_cons]

/-- C4: when the missing-entry loop returns exit code 1, the
`download_file` calls it made are exactly an in-order prefix of its
entry list, every call before the last returned normally, the failure
is the last call raising or the next entry in order having no
discovered URL (with all made calls then successful), a diagnostic was
printed to stderr, and no later entry was attempted. -/
theorem c4_first_failure_aborts (dl : Nat → Nat → AttemptOutcome) (urlMap : UrlMap)
    (total : Nat) :
    ∀ (entries : List SurahEntry) (i : Nat) (fs : FS),
      (downloadLoop dl urlMap total entries i fs).exit = 1 →
        (downloadLoop dl urlMap total entries i fs).calls.map (fun c => c.1) =
            entries.take (downloadLoop dl urlMap total entries i fs).calls.length ∧
        (∀ c ∈ (downloadLoop dl urlMap total entries i fs).calls.dropLast,
          c.2.raised = false) ∧
        ((∃ c, (downloadLoop dl urlMap total entries i fs).calls.getLast? = some c ∧
            c.2.raised = true) ∨
          (∃ e, entries[(downloadLoop dl urlMap total entries i fs).calls.length]? = some e ∧
            dictLookup urlMap e.number = none ∧
            ∀ c ∈ (downloadLoop dl urlMap total entries i fs).calls, c.2.raised = false)) ∧
        (downloadLoop dl urlMap total entries i fs).stderr ≠ [] := by
  intro entries
  induction entries with
  | nil =>
    intro i fs hexit
    rw [downloadLoop_nil] at hexit
    simp at hexit
  | cons e rest ih =>
    intro i fs hexit
    cases hl : dictLookup urlMap e.number with
    | none =>
      rw [downloadLoop_cons_noUrl dl urlMap total e rest i fs hl] at hexit ⊢
      refine ⟨rfl, by simp, Or.inr ⟨e, ?_, hl, by simp⟩, by simp⟩
      simp
    | some url =>
      by_cases hr : (download_file (dl i) (fsLookup fs e.filename)).raised = true
      · rw [downloadLoop_cons_raised dl urlMap total e rest i fs url hl hr] at hexit ⊢
        exact ⟨by simp, by simp, Or.inl ⟨_, rfl, hr⟩, by simp⟩
      · have hr' : (download_file (dl i) (fsLookup fs e.filename)).raised = false :=
          eq_false_of_ne_true hr
        rw [downloadLoop_cons_success dl urlMap total e rest i fs url hl hr'] at hexit ⊢
        obtain ⟨ih1, ih2, ih3, ih4⟩ := ih (i + 1)
          (fsUpdate fs e.filename (download_file (dl i) (fsLookup fs e.filename)).post) hexit
        refine ⟨?_, ?_, ?_, ih4⟩
        · simp only [List.map_cons, List.length_cons, List.take_succ_cons, ih1]
        · intro c hc
          rcases hcalls : (downloadLoop dl urlMap total rest (i + 1)
              (fsUpdate fs e.filename (download_file (dl i) (fsLookup fs e.filename)).post)).calls
            with _ | ⟨c0, cs⟩
          · rw [hcalls] at hc
            simp at hc
          · rw [hcalls] at hc ih2
            rw [List.dropLast_cons_of_ne_nil (by simp)] at hc
            rcases List.mem_cons.mp hc with hc | hc
            · subst hc; exact hr'
            · exact ih2 c hc
        · rcases ih3 with ⟨c, hlast, hcr⟩ | ⟨e2, hidx, hnone, hall⟩
          · refine Or.inl ⟨c, ?_, hcr⟩
            rw [getLast?_cons_of_ne_nil]
            · exact hlast
            · intro hnil
              rw [hnil] at hlast
              simp at hlast
          · refine Or.inr ⟨e2, ?_, hnone, ?_⟩
            · simpa using hidx
            · intro c hc
              rcases List.mem_cons.mp hc with hc | hc
              · subst hc; exact hr'
              · exact hall c hc

/-! ## Lemmas about `main` -/

/-- Unfolding: a manifest loading failure propagates out of `main`
uncaught. -/
theorem main_manifest_error (env : Env) (fs0 : FS) (h : env.manifest = .error ()) :
    main env fs0 = .error () := by
  simp [main, h]

/-- Unfolding: a discovery failure is caught, reported on stderr, and
turned into exit code 1, with no download call. -/
theorem main_discovery_error (env : Env) (fs0 : FS) (s : List SurahEntry)
    (hm : env.manifest = .ok s) (hd : discover_urls env.fetch = .error ()) :
    main env fs0 = .ok
      { exit := 1, fs := fs0, calls := [], stdout := [],
        stderr := [Msg.discoveryFailed] } := by
  simp [main, hm, hd]

/-- Unfolding: when nothing is missing, `main` reports the no-op
message and returns 0 without any download call. -/
theorem main_all_present (env : Env) (fs0 : FS) (s : List SurahEntry) (urlMap : UrlMap)
    (hm : env.manifest = .ok s) (hd : discover_urls env.fetch = .ok urlMap)
    (hmiss : (s.filter (fun e => !(fsExists fs0 e.filename))).isEmpty = true) :
    main env fs0 = .ok
      { exit := 0, fs := fs0, calls := [], stdout := [Msg.allPresent],
        stderr := [] } := by
  simp [main, hm, hd, hmiss]

/-- Unfolding: with a nonempty missing list, `main` prints the total
and runs the download loop over the missing entries in manifest order. -/
theorem main_runs_loop (env : Env) (fs0 : FS) (s : List SurahEntry) (urlMap : UrlMap)
    (hm : env.manifest = .ok s) (hd : discover_urls env.fetch = .ok urlMap)
    (hmiss : (s.filter (fun e => !(fsExists fs0 e.filename))).isEmpty = false) :
    main env fs0 = .ok
      { downloadLoop env.dl urlMap (s.filter (fun e => !(fsExists fs0 e.filename))).length
          (s.filter (fun e => !(fsExists fs0 e.filename))) 1 fs0 with
        stdout := Msg.downloadingTotal
            (s.filter (fun e => !(fsExists fs0 e.filename))).length ::
          (downloadLoop env.dl urlMap (s.filter (fun e => !(fsExists fs0 e.filename))).length
            (s.filter (fun e => !(fsExists fs0 e.filename))) 1 fs0).stdout } := by
  simp [main, hm, hd, hmiss]

/-- C1: a fetched page from which fewer than 114 distinct numeric keys
are extracted makes `discover_urls` raise, and `main` then returns exit
code 1 with a stderr diagnostic and no `download_file` call — the
missing-entry loop is never entered. -/
theorem c1_short_discovery_aborts (html : String)
    (hlt : (buildUrls (findAll html.data)).length < 114) (s : List SurahEntry)
    (dl : Nat → Nat → AttemptOutcome) (fs0 : FS) :
    discover_urls (.ok html) = .error () ∧
      main ⟨.ok s, .ok html, dl⟩ fs0 = .ok
        { exit := 1, fs := fs0, calls := [],
          stdout := [], stderr := [Msg.discoveryFailed] } := by
  have hd : discover_urls (.ok html) = .error () := by
    simp [discover_urls, hlt]
  exact ⟨hd, main_discovery_error ⟨.ok s, .ok html, dl⟩ fs0 s rfl hd⟩

/-- Witness for C1 at a concrete input: an empty page yields 0 keys. -/
theorem c1_short_discovery_aborts_witness :
    (buildUrls (findAll "".data)).length < 114 ∧
      (discover_urls (.ok "") = .error () ∧
        main ⟨.ok [⟨1, "001.mp3"⟩], .ok "", fun _ _ => .netErr⟩ [] =
          .ok
            { exit := 1, fs := [], calls := [], stdout := [],
              stderr := [Msg.discoveryFailed] }) :=
  ⟨by decide,
    c1_short_discovery_aborts "" (by decide) [⟨1, "001.mp3"⟩] (fun _ _ => .netErr) []⟩

/-- C9: the two top-level error tiers.  A manifest loading failure
propagates uncaught out of `main` (the model's `.error` result — the
process crashes with a traceback), while a failure raised during URL
discovery is caught, reported on stderr, and converted to a clean
return of exit code 1. -/
theorem c9_error_tiers :
    (∀ (env : Env) (fs0 : FS), env.manifest = .error () → main env fs0 = .error ()) ∧
      (∀ (env : Env) (fs0 : FS) (s : List SurahEntry), env.manifest = .ok s →
        discover_urls env.fetch = .error () →
        main env fs0 = .ok
          { exit := 1, fs := fs0, calls := [], stdout := [],
            stderr := [Msg.discoveryFailed] }) :=
  ⟨fun env fs0 h => main_manifest_error env fs0 h,
    fun env fs0 s hm hd => main_discovery_error env fs0 s hm hd⟩

/-- Witness for C9 at concrete inputs: a failing manifest load crashes
`main`; a failing page fetch yields a clean exit 1. -/
theorem c9_error_tiers_witness :
    main ⟨.error (), .ok "x", fun _ _ => .netErr⟩ [] = .error () ∧
      main ⟨.ok [], .error (), fun _ _ => .netErr⟩ [] =
        .ok
          { exit := 1, fs := [], calls := [], stdout := [],
            stderr := [Msg.discoveryFailed] } :=
  ⟨c9_error_tiers.1 ⟨.error (), .ok "x", fun _ _ => .netErr⟩ [] rfl,
    c9_error_tiers.2 ⟨.ok [], .error (), fun _ _ => .netErr⟩ [] [] rfl rfl⟩

/-- C6: a manifest entry whose destination file already exists before
the run is excluded from the missing list, so `download_file` is never
called for it — no HTTP request for that entry's content is issued by
any non-crashing run. -/
theorem c6_existing_entry_never_downloaded (env : Env) (fs0 : FS) (r : RunResult)
    (s : List SurahEntry) (hm : env.manifest = .ok s) (hr : main env fs0 = .ok r)
    (e : SurahEntry) (he : e ∈ s) (hex : fsExists fs0 e.filename = true) :
    ∀ c ∈ r.calls, c.1 ≠ e := by
  cases hd : discover_urls env.fetch with
  | error u =>
    cases u
    rw [main_discovery_error env fs0 s hm hd] at hr
    simp only [Except.ok.injEq] at hr
    subst hr
    intro c hc
    simp at hc
  | ok urlMap =>
    by_cases hmiss : (s.filter (fun x => !(fsExists fs0 x.filename))).isEmpty = true
    · rw [main_all_present env fs0 s urlMap hm hd hmiss] at hr
      simp only [Except.ok.injEq] at hr
      subst hr
      intro c hc
      simp at hc
    · rw [main_runs_loop env fs0 s urlMap hm hd (eq_false_of_ne_true hmiss)] at hr
      simp only [Except.ok.injEq] at hr
      subst hr
      intro c hc heq
      have hmem : c.1 ∈ s.filter (fun x => !(fsExists fs0 x.filename)) :=
        downloadLoop_calls_mem env.dl urlMap
          (s.filter (fun x => !(fsExists fs0 x.filename))).length
          (s.filter (fun x => !(fsExists fs0 x.filename))) 1 fs0 c hc
      have hpred := (List.mem_filter.mp hmem).2
      rw [heq] at hpred
      rw [hex] at hpred
      simp at hpred

set_option maxRecDepth 1000000

/-- Witness for C6 at a concrete input: a two-entry manifest with one
file already present; the run downloads only the other entry. -/
theorem c6_existing_entry_never_downloaded_witness :
    main ⟨.ok [⟨115, "a.mp3"⟩, ⟨116, "b.mp3"⟩], .ok bigPage, fun _ _ => .ok "body"⟩
        [("a.mp3", "x")] =
      .ok
        { exit := 0, fs := [("a.mp3", "x"), ("b.mp3", "body")],
          calls := [(⟨116, "b.mp3"⟩,
            { raised := false, post := some "body", attempts := 1, sleeps := [] })],
          stdout := [Msg.downloadingTotal 1,
            Msg.progress 1 1 "b.mp3" "https://a/116.mp3", Msg.completed],
          stderr := [] } ∧
      ∀ c ∈ (
        { exit := 0, fs := [("a.mp3", "x"), ("b.mp3", "body")],
          calls := [(⟨116, "b.mp3"⟩,
            { raised := false, post := some "body", attempts := 1, sleeps := [] })],
          stdout := [Msg.downloadingTotal 1,
            Msg.progress 1 1 "b.mp3" "https://a/116.mp3", Msg.completed],
          stderr := [] } : RunResult).calls, c.1 ≠ (⟨115, "a.mp3"⟩ : SurahEntry) :=
  have h1 : main ⟨.ok [⟨115, "a.mp3"⟩, ⟨116, "b.mp3"⟩], .ok bigPage, fun _ _ => .ok "body"⟩
      [("a.mp3", "x")] =
    .ok
      { exit := 0, fs := [("a.mp3", "x"), ("b.mp3", "body")],
        calls := [(⟨116, "b.mp3"⟩,
          { raised := false, post := some "body", attempts := 1, sleeps := [] })],
        stdout := [Msg.downloadingTotal 1,
          Msg.progress 1 1 "b.mp3" "https://a/116.mp3", Msg.completed],
        stderr := [] } := by rfl
  ⟨h1, c6_existing_entry_never_downloaded
    ⟨.ok [⟨115, "a.mp3"⟩, ⟨116, "b.mp3"⟩], .ok bigPage, fun _ _ => .ok "body"⟩
    [("a.mp3", "x")] _ [⟨115, "a.mp3"⟩, ⟨116, "b.mp3"⟩] rfl h1 ⟨115, "a.mp3"⟩
    (by simp) rfl⟩

/-- C5: a run that returned exit code 0 leaves every manifest entry's
file on disk, so an immediately repeated run (same manifest, same
page, nothing removed) finds nothing missing: it prints the no-op
message and returns 0 with zero download calls. -/
theorem c5_second_run_no_op (env : Env) (fs0 : FS) (r : RunResult)
    (s : List SurahEntry) (hm : env.manifest = .ok s) (hr : main env fs0 = .ok r)
    (h0 : r.exit = 0) :
    main env r.fs = .ok
      { exit := 0, fs := r.fs, calls := [], stdout := [Msg.allPresent],
        stderr := [] } := by
  cases hd : discover_urls env.fetch with
  | error u =>
    cases u
    rw [main_discovery_error env fs0 s hm hd] at hr
    simp only [Except.ok.injEq] at hr
    subst hr
    simp at h0
  | ok urlMap =>
    by_cases hmiss : (s.filter (fun x => !(fsExists fs0 x.filename))).isEmpty = true
    · rw [main_all_present env fs0 s urlMap hm hd hmiss] at hr
      simp only [Except.ok.injEq] at hr
      subst hr
      exact main_all_present env fs0 s urlMap hm hd hmiss
    · rw [main_runs_loop env fs0 s urlMap hm hd (eq_false_of_ne_true hmiss)] at hr
      simp only [Except.ok.injEq] at hr
      subst hr
      have hfs := downloadLoop_exit0_fs env.dl urlMap
        (s.filter (fun x => !(fsExists fs0 x.filename))).length
        (s.filter (fun x => !(fsExists fs0 x.filename))) 1 fs0 h0
      have hall : ∀ e ∈ s,
          fsExists (downloadLoop env.dl urlMap
            (s.filter (fun x => !(fsExists fs0 x.filename))).length
            (s.filter (fun x => !(fsExists fs0 x.filename))) 1 fs0).fs e.filename = true := by
        intro e he
        by_cases hex : fsExists fs0 e.filename = true
        · exact hfs.1 e.filename hex
        · refine hfs.2 e (List.mem_filter.mpr ⟨he, ?_⟩)
          simp [eq_false_of_ne_true hex]
      refine main_all_present env _ s urlMap hm hd ?_
      rw [List.isEmpty_iff, List.filter_eq_nil_iff]
      intro a ha
      simp [hall a ha]

/-- Witness for C5 at a concrete input: a one-entry manifest whose file
is already present; both runs are no-ops with exit code 0. -/
theorem c5_second_run_no_op_witness :
    main ⟨.ok [⟨115, "f.mp3"⟩], .ok bigPage, fun _ _ => .netErr⟩ [("f.mp3", "x")] =
      .ok
        { exit := 0, fs := [("f.mp3", "x")], calls := [],
          stdout := [Msg.allPresent], stderr := [] } ∧
      main ⟨.ok [⟨115, "f.mp3"⟩], .ok bigPage, fun _ _ => .netErr⟩
          (
            { exit := 0, fs := [("f.mp3", "x")], calls := [],
              stdout := [Msg.allPresent], stderr := [] } : RunResult).fs =
        .ok
          { exit := 0,
            fs := (
              { exit := 0, fs := [("f.mp3", "x")], calls := [],
                stdout := [Msg.allPresent], stderr := [] } : RunResult).fs,
            calls := [], stdout := [Msg.allPresent], stderr := [] } :=
  have h1 : main ⟨.ok [⟨115, "f.mp3"⟩], .ok bigPage, fun _ _ => .netErr⟩ [("f.mp3", "x")] =
      .ok
        { exit := 0, fs := [("f.mp3", "x")], calls := [],
          stdout := [Msg.allPresent], stderr := [] } := by rfl
  ⟨h1, c5_second_run_no_op ⟨.ok [⟨115, "f.mp3"⟩], .ok bigPage, fun _ _ => .netErr⟩
    [("f.mp3", "x")] _ [⟨115, "f.mp3"⟩] rfl h1 rfl⟩

/-- Witness for C4 at a concrete input: a one-entry loop whose entry
has no discovered URL exits 1 with a stderr diagnostic. -/
theorem c4_first_failure_aborts_witness :
    (downloadLoop (fun _ _ => AttemptOutcome.netErr) [] 1 [⟨5, "005.mp3"⟩] 1 []).exit = 1 ∧
      (downloadLoop (fun _ _ => AttemptOutcome.netErr) [] 1 [⟨5, "005.mp3"⟩] 1 []).stderr ≠ [] :=
  ⟨rfl, (c4_first_failure_aborts (fun _ _ => AttemptOutcome.netErr) [] 1
    [⟨5, "005.mp3"⟩] 1 [] rfl).2.2.2⟩

/-- C10: passing the 114-distinct-key discovery check does not make
every manifest number resolvable.  The keys are the integer values of
any matched three-digit group, so a page whose 114 distinct keys are
115‥228 passes discovery, yet the run for a manifest whose number is 1
reaches the missing-URL branch of the download loop: exit code 1, a
`noUrl` stderr diagnostic, and no download call. -/
theorem c10_discovery_check_insufficient :
    (discover_urls (.ok bigPage)).isOk = true ∧
      main ⟨.ok [⟨1, "001.mp3"⟩], .ok bigPage, fun _ _ => .ok "b"⟩ [] =
        .ok
          { exit := 1, fs := [], calls := [], stdout := [Msg.downloadingTotal 1],
            stderr := [Msg.noUrl 1] } :=
  ⟨rfl, rfl⟩

end QuranDL
